import Mathlib

/-!
Verification of `ronald-egui/scripts/generate-key-labels.py`, a build-time
asset pipeline that, for each entry of a static key table, synthesizes an
SVG document with one or two `<text>` elements, shells out to a converter
(inkscape) turning text into path geometry, and extracts the path lines of
the converted file into a per-key output file.

The embedding below models:
- the static `keys` table (the `Key` dataclass and the 81 records);
- the SVG synthesizer of `main` (lines 308-327) as the list of `<text>`
  elements it appends, each with its `x`, `y`, `font-size` and content
  attributes (Python `//` is floor division, embedded as `Int.fdiv`);
- the line-oriented path extractor of `main` (lines 336-346) as a function
  from the list of input lines to the list of lines written out, with the
  `extract` flag threaded through;
- the transient-file cleanup of `main` (lines 348-352) as a function on the
  pair of file-existence booleans, with `os.remove` returning `Option`
  (`none` models `FileNotFoundError`) and the single `except` clause around
  both removals modelled by the `match` structure.
-/

namespace GenerateKeyLabels

/-- Key mirrors the `Key` dataclass: name, position, width and the list of
display labels. -/
structure Key where
  name : String
  x : Int
  y : Int
  width : Int
  labels : List String
deriving DecidableEq, Repr, Inhabited

set_option maxHeartbeats 2000000 in
/-- keys mirrors the static `keys` table of the script (the commented-out
`Space` record is absent there and hence absent here). Non-ASCII labels are
transcribed codepoint-for-codepoint from the file's UTF-8 bytes. -/
def keys : List Key := [
  ⟨"Escape", 0, 0, 100, ["ESC"]⟩,
  ⟨"Key1", 100, 0, 100, ["!", "1"]⟩,
  ⟨"Key2", 200, 0, 100, ["\"", "2"]⟩,
  ⟨"Key3", 300, 0, 100, ["#", "3"]⟩,
  ⟨"Key4", 400, 0, 100, ["$", "4"]⟩,
  ⟨"Key5", 500, 0, 100, ["%", "5"]⟩,
  ⟨"Key6", 600, 0, 100, ["&amp;", "6"]⟩,
  ⟨"Key7", 700, 0, 100, ["\x27", "7"]⟩,
  ⟨"Key8", 800, 0, 100, ["(", "8"]⟩,
  ⟨"Key9", 900, 0, 100, [")", "9"]⟩,
  ⟨"Key0", 1000, 0, 100, ["_", "0"]⟩,
  ⟨"Minus", 1100, 0, 100, ["=", "-"]⟩,
  ⟨"Caret", 1200, 0, 100, ["Â£", "â†‘"]⟩,
  ⟨"Clear", 1300, 0, 100, ["CLR"]⟩,
  ⟨"Delete", 1400, 0, 100, ["DEL"]⟩,
  ⟨"Numpad7", 1500, 0, 100, ["F7"]⟩,
  ⟨"Numpad8", 1600, 0, 100, ["F8"]⟩,
  ⟨"Numpad9", 1700, 0, 100, ["F9"]⟩,
  ⟨"JoystickUp", 2000, 0, 100, ["â‡§"]⟩,
  ⟨"Tab", 0, 100, 125, ["TAB"]⟩,
  ⟨"Q", 125, 100, 100, ["Q"]⟩,
  ⟨"W", 225, 100, 100, ["W"]⟩,
  ⟨"E", 325, 100, 100, ["E"]⟩,
  ⟨"R", 425, 100, 100, ["R"]⟩,
  ⟨"T", 525, 100, 100, ["T"]⟩,
  ⟨"Y", 625, 100, 100, ["Y"]⟩,
  ⟨"U", 725, 100, 100, ["U"]⟩,
  ⟨"I", 825, 100, 100, ["I"]⟩,
  ⟨"O", 925, 100, 100, ["O"]⟩,
  ⟨"P", 1025, 100, 100, ["P"]⟩,
  ⟨"At", 1125, 100, 100, ["|", "@"]⟩,
  ⟨"BracketLeft", 1225, 100, 100, ["\x7b", "["]⟩,
  ⟨"Enter", 1325, 100, 175, ["RETURN"]⟩,
  ⟨"Numpad4", 1500, 100, 100, ["F4"]⟩,
  ⟨"Numpad5", 1600, 100, 100, ["F5"]⟩,
  ⟨"Numpad6", 1700, 100, 100, ["F6"]⟩,
  ⟨"JoystickLeft", 1900, 100, 100, ["â‡¦"]⟩,
  ⟨"JoystickIcon", 2000, 100, 100, ["ðŸ•¹"]⟩,
  ⟨"JoystickRight", 2100, 100, 100, ["â‡¨"]⟩,
  ⟨"CapsLock", 0, 200, 150, ["CAPS", "LOCK"]⟩,
  ⟨"A", 150, 200, 100, ["A"]⟩,
  ⟨"S", 250, 200, 100, ["S"]⟩,
  ⟨"D", 350, 200, 100, ["D"]⟩,
  ⟨"F", 450, 200, 100, ["F"]⟩,
  ⟨"G", 550, 200, 100, ["G"]⟩,
  ⟨"H", 650, 200, 100, ["H"]⟩,
  ⟨"J", 750, 200, 100, ["J"]⟩,
  ⟨"K", 850, 200, 100, ["K"]⟩,
  ⟨"L", 950, 200, 100, ["L"]⟩,
  ⟨"Colon", 1050, 200, 100, ["*", ":"]⟩,
  ⟨"Semicolon", 1150, 200, 100, ["+", ";"]⟩,
  ⟨"BracketRight", 1250, 200, 100, ["\x7d", "]"]⟩,
  ⟨"Numpad1", 1500, 200, 100, ["F1"]⟩,
  ⟨"Numpad2", 1600, 200, 100, ["F2"]⟩,
  ⟨"Numpad3", 1700, 200, 100, ["F3"]⟩,
  ⟨"JoystickDown", 2000, 200, 100, ["â‡©"]⟩,
  ⟨"ShiftLeft", 0, 300, 200, ["SHIFT"]⟩,
  ⟨"Z", 200, 300, 100, ["Z"]⟩,
  ⟨"X", 300, 300, 100, ["X"]⟩,
  ⟨"C", 400, 300, 100, ["C"]⟩,
  ⟨"V", 500, 300, 100, ["V"]⟩,
  ⟨"B", 600, 300, 100, ["B"]⟩,
  ⟨"N", 700, 300, 100, ["N"]⟩,
  ⟨"M", 800, 300, 100, ["M"]⟩,
  ⟨"Comma", 900, 300, 100, ["&lt;", ","]⟩,
  ⟨"Period", 1000, 300, 100, ["&gt;", "."]⟩,
  ⟨"Slash", 1100, 300, 100, ["?", "/"]⟩,
  ⟨"Backslash", 1200, 300, 100, ["\x60", "\\"]⟩,
  ⟨"ShiftRight", 1300, 300, 200, ["SHIFT"]⟩,
  ⟨"Numpad0", 1500, 300, 100, ["F0"]⟩,
  ⟨"ArrowUp", 1600, 300, 100, ["â‡§"]⟩,
  ⟨"NumpadPeriod", 1700, 300, 100, ["."]⟩,
  ⟨"JoystickFire1", 1900, 300, 100, ["FIRE 1"]⟩,
  ⟨"JoystickFire2", 2000, 300, 100, ["FIRE 2"]⟩,
  ⟨"JoystickFire3", 2100, 300, 100, ["FIRE 3"]⟩,
  ⟨"Control", 0, 400, 200, ["CONTROL"]⟩,
  ⟨"Copy", 200, 400, 175, ["COPY"]⟩,
  ⟨"NumpadEnter", 1175, 400, 325, ["ENTER"]⟩,
  ⟨"ArrowLeft", 1500, 400, 100, ["â‡¦"]⟩,
  ⟨"ArrowDown", 1600, 400, 100, ["â‡©"]⟩,
  ⟨"ArrowRight", 1700, 400, 100, ["â‡¨"]⟩]

/-- TextElem models one `<text>` element appended to the svg string: its
`x`, `y` and `font-size` attributes and its text content. The constant
styling attributes (font-family, fill, stroke, text-anchor,
dominant-baseline) are identical on every element and are not modelled. -/
structure TextElem where
  x : Int
  y : Int
  size : Nat
  content : String
deriving DecidableEq, Repr, Inhabited

/-- fireNames is the literal list `["JoystickFire1", "JoystickFire2",
"JoystickFire3"]` of the script's first font-size branch. -/
def fireNames : List String := ["JoystickFire1", "JoystickFire2", "JoystickFire3"]

/-- synthTexts embeds the per-key SVG synthesis (lines 308-327): the
horizontal center `x = key.x + key.width // 2` (Python floor division is
`Int.fdiv`), then either one `<text>` element at `y + 50` (font size 25 for
the three fire keys, 70 for `JoystickIcon`, else 30) or, in the `else`
branch, two elements at `y + 35` and `y + 70` with font size 30. -/
def synthTexts (key : Key) : List TextElem :=
  let x := key.x + Int.fdiv key.width 2
  if key.labels.length = 1 then
    let size : Nat :=
      if key.name ∈ fireNames then 25
      else if key.name ∈ ["JoystickIcon"] then 70
      else 30
    [⟨x, key.y + 50, size, key.labels.getD 0 ""⟩]
  else
    [⟨x, key.y + 35, 30, key.labels.getD 0 ""⟩,
     ⟨x, key.y + 70, 30, key.labels.getD 1 ""⟩]

/-- leadMatch needle haystack is true when needle occurs at the very start
of haystack (helper for the substring test). -/
def leadMatch : List Char → List Char → Bool
  | [], _ => true
  | _ :: _, [] => false
  | a :: as, b :: bs => a == b && leadMatch as bs

/-- containsSeq needle haystack is true when needle occurs contiguously
anywhere in haystack; it embeds the Python bytes containment test
`needle in line`. -/
def containsSeq (needle : List Char) : List Char → Bool
  | [] => leadMatch needle []
  | c :: rest => leadMatch needle (c :: rest) || containsSeq needle rest

/-- pathMarker is the path-start marker `<path` of line 340. -/
def pathMarker : String := "<path"

/-- groupCloseMarker is the group-close marker `</g>` of line 342. -/
def groupCloseMarker : String := "</g>"

/-- hasPathMarker line embeds the test `b"<path" in line`. -/
def hasPathMarker (line : String) : Bool :=
  containsSeq pathMarker.data line.data

/-- hasGroupClose line embeds the test `b"</g>" in line`. -/
def hasGroupClose (line : String) : Bool :=
  containsSeq groupCloseMarker.data line.data

/-- stepFlag embeds the two sequential reassignments of the `extract` flag
performed for each input line (lines 340-343): first set it to true when
the line contains `<path`, then set it to false when the line contains
`</g>`. -/
def stepFlag (extract : Bool) (line : String) : Bool :=
  let extract := if hasPathMarker line then true else extract
  let extract := if hasGroupClose line then false else extract
  extract

/-- extractLines embeds the extraction loop body (lines 339-346): for each
line, update the flag by `stepFlag`, then write the line exactly when the
updated flag is true. The result is the list of lines written to the
output file. -/
def extractLines : Bool → List String → List String
  | _, [] => []
  | extract, line :: rest =>
    if stepFlag extract line then line :: extractLines (stepFlag extract line) rest
    else extractLines (stepFlag extract line) rest

/-- pathExtract runs the extractor from its initial state
`extract = False` (line 338). -/
def pathExtract (lines : List String) : List String :=
  extractLines false lines

/-- TempState records which of the two transient files currently exist:
`temp_in.svg` and `temp_out.svg`. -/
structure TempState where
  tempIn : Bool
  tempOut : Bool
deriving DecidableEq, Repr

/-- removeFile embeds `os.remove` on a file whose existence is the given
boolean: it yields the new existence value, or `none` for the
`FileNotFoundError` raised when the file is already missing. -/
def removeFile (present : Bool) : Option Bool :=
  if present then some false else none

/-- cleanup embeds the finalization block (lines 348-352): a single
`try` around `os.remove("temp_in.svg")` then `os.remove("temp_out.svg")`,
with one `except FileNotFoundError: pass` handler; an exception raised by
either removal aborts the rest of the block. -/
def cleanup (s : TempState) : TempState :=
  match removeFile s.tempIn with
  | none => s
  | some tin =>
    match removeFile s.tempOut with
    | none => { tempIn := tin, tempOut := s.tempOut }
    | some tout => { tempIn := tin, tempOut := tout }

/-- Region describes one marker-delimited region of a converted file
together with the marker-free gap preceding it. -/
structure Region where
  gap : List String
  opener : String
  body : List String
  closer : String
deriving DecidableEq, Repr

/-- wf states the marker conditions making a `Region` a genuine
marker-delimited region preceded by a marker-free gap: the gap lines
contain no path-start marker, the opener contains the path-start marker
and no group-close marker, the body lines contain no group-close marker,
and the closer contains the group-close marker. -/
def Region.wf (r : Region) : Bool :=
  r.gap.all (fun l => !hasPathMarker l) &&
  hasPathMarker r.opener && !hasGroupClose r.opener &&
  r.body.all (fun l => !hasGroupClose l) &&
  hasGroupClose r.closer

/-- lines of a region as they appear in the converted file. -/
def Region.lines (r : Region) : List String :=
  r.gap ++ r.opener :: (r.body ++ [r.closer])

/-- content of a region: its lines excluding the closing marker line and
the preceding gap. -/
def Region.content (r : Region) : List String :=
  r.opener :: r.body

/-- assemble builds a converted file from consecutive regions followed by
a trailing remainder. -/
def assemble : List Region → List String → List String
  | [], tail => tail
  | r :: rs, tail => r.lines ++ assemble rs tail

/-- contents concatenates the contents of consecutive regions. -/
def contents : List Region → List String
  | [] => []
  | r :: rs => r.content ++ contents rs

/-- sampleOpenLine is a concrete line containing the path-start marker and
no group-close marker. -/
def sampleOpenLine : String := "<path d=3"

/-- sampleCloseLine is a concrete line containing the group-close marker. -/
def sampleCloseLine : String := "stroke</g>"

/-- bothMarkersLine is a concrete line containing both the path-start
marker and the group-close marker. -/
def bothMarkersLine : String := "<path d=5/></g>"

/-- sampleRegionA is a concrete region with a nonempty gap and body. -/
def sampleRegionA : Region := ⟨["header"], "<path d=1", ["segment"], "</g>"⟩

/-- sampleRegionB is a concrete region with an empty gap and body. -/
def sampleRegionB : Region := ⟨[], "<path d=2", [], "fill</g>"⟩

/-- tabKey is the `Tab` record of the table; its width 125 is odd. -/
def tabKey : Key := ⟨"Tab", 0, 100, 125, ["TAB"]⟩

/-- escapeKey is the `Escape` record of the table; its width 100 is even. -/
def escapeKey : Key := ⟨"Escape", 0, 0, 100, ["ESC"]⟩

/-- fire1Key is the `JoystickFire1` record of the table, one of the three
font-size-25 exceptions. -/
def fire1Key : Key := ⟨"JoystickFire1", 1900, 300, 100, ["FIRE 1"]⟩

/-- key1Key is the `Key1` record of the table, a two-label record. -/
def key1Key : Key := ⟨"Key1", 100, 0, 100, ["!", "1"]⟩

lemma stepFlag_of_close {line : String} (hc : hasGroupClose line = true) (e : Bool) :
    stepFlag e line = false := by
  simp [stepFlag, hc]

lemma stepFlag_of_path {line : String} (hp : hasPathMarker line = true)
    (hc : hasGroupClose line = false) (e : Bool) : stepFlag e line = true := by
  simp [stepFlag, hp, hc]

lemma extractLines_cons (e : Bool) (line : String) (rest : List String) :
    extractLines e (line :: rest) =
      if stepFlag e line then line :: extractLines (stepFlag e line) rest
      else extractLines (stepFlag e line) rest := rfl

lemma extractLines_nil (e : Bool) : extractLines e [] = [] := rfl

lemma extractLines_gap {g : List String} (h : ∀ l ∈ g, hasPathMarker l = false)
    (rest : List String) : extractLines false (g ++ rest) = extractLines false rest := by
  induction g with
  | nil => rfl
  | cons l g ih =>
    have hl : hasPathMarker l = false := h l (List.mem_cons_self l g)
    have hstep : stepFlag false l = false := by
      cases hc : hasGroupClose l <;> simp [stepFlag, hl, hc]
    rw [List.cons_append, extractLines_cons, hstep]
    simpa using ih fun x hx => h x (List.mem_cons_of_mem _ hx)

lemma extractLines_noPath {g : List String} (h : ∀ l ∈ g, hasPathMarker l = false) :
    extractLines false g = [] := by
  simpa using extractLines_gap h []

lemma extractLines_run {b : List String} (h : ∀ l ∈ b, hasGroupClose l = false)
    (rest : List String) : extractLines true (b ++ rest) = b ++ extractLines true rest := by
  induction b with
  | nil => rfl
  | cons l b ih =>
    have hl : hasGroupClose l = false := h l (List.mem_cons_self l b)
    have hstep : stepFlag true l = true := by
      cases hp : hasPathMarker l <;> simp [stepFlag, hl, hp]
    rw [List.cons_append, extractLines_cons, hstep]
    simpa using ih fun x hx => h x (List.mem_cons_of_mem _ hx)

lemma extractLines_run0 {b : List String} (h : ∀ l ∈ b, hasGroupClose l = false) :
    extractLines true b = b := by
  simpa [extractLines_nil] using extractLines_run h []

lemma extractLines_region {r : Region} (hr : r.wf = true) (rest : List String) :
    extractLines false (r.lines ++ rest) = r.content ++ extractLines false rest := by
  obtain ⟨gap, opener, body, closer⟩ := r
  simp only [Region.wf, Bool.and_eq_true, List.all_eq_true, Bool.not_eq_true'] at hr
  obtain ⟨⟨⟨⟨hgap, hop⟩, hopc⟩, hbody⟩, hcl⟩ := hr
  show extractLines false ((gap ++ opener :: (body ++ [closer])) ++ rest) =
    opener :: body ++ extractLines false rest
  rw [List.append_assoc, extractLines_gap hgap]
  rw [List.cons_append, extractLines_cons, stepFlag_of_path hop hopc]
  rw [List.append_assoc, List.singleton_append, extractLines_run hbody]
  rw [extractLines_cons, stepFlag_of_close hcl]
  simp

/-- C1 (counterexample): a line containing both the path-start marker and
the group-close marker is NOT copied, contradicting the claim that every
line containing the path-start marker is written regardless of prior
state: the group-close check runs after the path check and clears the flag
before the write check. -/
theorem marker_line_both_cex :
    hasPathMarker bothMarkersLine = true ∧ hasGroupClose bothMarkersLine = true ∧
    pathExtract [bothMarkersLine] = [] := by decide

/-- C1 (amended): in any prior state of the extracting flag, a line
containing the path-start marker but not the group-close marker is copied
and leaves the flag set; a line containing the group-close marker (even
one that also contains the path-start marker) is not copied and leaves the
flag cleared, since the flag is cleared before the write check. -/
theorem marker_line_ordering (e : Bool) (line : String) (rest : List String) :
    (hasPathMarker line = true → hasGroupClose line = false →
      extractLines e (line :: rest) = line :: extractLines true rest) ∧
    (hasGroupClose line = true →
      extractLines e (line :: rest) = extractLines false rest) := by
  constructor
  · intro hp hc
    rw [extractLines_cons, stepFlag_of_path hp hc]
    simp
  · intro hc
    rw [extractLines_cons, stepFlag_of_close hc]
    simp

/-- C1 (witness): the amended theorem applied to a concrete open-marker
line in the flag-off state and a concrete close-marker line in the
flag-on state. -/
theorem marker_line_ordering_witness :
    extractLines false [sampleOpenLine] = sampleOpenLine :: extractLines true [] ∧
    extractLines true [sampleCloseLine] = extractLines false [] :=
  ⟨(marker_line_ordering false sampleOpenLine []).1 (by decide) (by decide),
   (marker_line_ordering true sampleCloseLine []).2 (by decide)⟩

/-- C6: a converted file made of consecutive marker-delimited regions,
each preceded by a marker-free gap and followed by a marker-free trailer,
extracts to exactly the concatenation of the regions' contents (each
region's lines excluding its closing group-close line), in input order. -/
theorem extract_regions (rs : List Region) (tail : List String)
    (hrs : ∀ r ∈ rs, r.wf = true) (htail : ∀ l ∈ tail, hasPathMarker l = false) :
    pathExtract (assemble rs tail) = contents rs := by
  induction rs with
  | nil => exact extractLines_noPath htail
  | cons r rs ih =>
    have hr := hrs r (List.mem_cons_self r rs)
    show extractLines false (r.lines ++ assemble rs tail) = r.content ++ contents rs
    rw [extractLines_region hr]
    exact congrArg (r.content ++ ·) (ih fun x hx => hrs x (List.mem_cons_of_mem _ hx))

/-- C6 (witness): the region theorem applied to a concrete two-region
converted file with a trailer. -/
theorem extract_regions_witness :
    pathExtract (assemble [sampleRegionA, sampleRegionB] ["trailer"]) =
      contents [sampleRegionA, sampleRegionB] :=
  extract_regions [sampleRegionA, sampleRegionB] ["trailer"] (by decide) (by decide)

/-- C7: a converted file none of whose lines contains the path-start
marker extracts to the empty output. -/
theorem extract_no_path_marker (lines : List String)
    (h : ∀ l ∈ lines, hasPathMarker l = false) :
    pathExtract lines = [] :=
  extractLines_noPath h

/-- C7 (witness): the empty-extraction theorem applied to a concrete
marker-free converted file. -/
theorem extract_no_path_marker_witness :
    pathExtract ["<svg>", "text</g>", "</svg>"] = [] :=
  extract_no_path_marker ["<svg>", "text</g>", "</svg>"] (by decide)

/-- C8: when a converted file has a line containing the path-start marker,
no earlier line contains it, and no line from it onward contains the
group-close marker, every line from that first marker line through
end-of-file is copied. -/
theorem extract_unclosed_region (pre : List String) (line : String) (post : List String)
    (hpre : ∀ l ∈ pre, hasPathMarker l = false)
    (hline : hasPathMarker line = true)
    (hnc : ∀ l ∈ line :: post, hasGroupClose l = false) :
    pathExtract (pre ++ line :: post) = line :: post := by
  show extractLines false (pre ++ line :: post) = line :: post
  rw [extractLines_gap hpre]
  have hc : hasGroupClose line = false := hnc line (List.mem_cons_self line post)
  rw [extractLines_cons, stepFlag_of_path hline hc]
  have hpost : ∀ l ∈ post, hasGroupClose l = false :=
    fun x hx => hnc x (List.mem_cons_of_mem _ hx)
  rw [extractLines_run0 hpost]
  simp

/-- C8 (witness): the unclosed-region theorem applied to a concrete file
whose single path-start line is never followed by a group-close line. -/
theorem extract_unclosed_region_witness :
    pathExtract (["<svg>", "<g>"] ++ "<path d=4" :: ["more", "lines"]) =
      "<path d=4" :: ["more", "lines"] :=
  extract_unclosed_region ["<svg>", "<g>"] "<path d=4" ["more", "lines"]
    (by decide) (by decide) (by decide)

/-- C10: in every state of the extracting flag, no line containing the
group-close marker is ever emitted: the flag is cleared on such a line
before the write check, so the output never contains a group-close line. -/
theorem no_group_close_emitted (e : Bool) (lines : List String) :
    ((extractLines e lines).all fun l => !hasGroupClose l) = true := by
  induction lines generalizing e with
  | nil => rfl
  | cons l rest ih =>
    by_cases hc : hasGroupClose l = true
    · rw [extractLines_cons, stepFlag_of_close hc]
      simpa using ih false
    · have hc' : hasGroupClose l = false := by
        cases h : hasGroupClose l
        · rfl
        · exact absurd h hc
      rw [extractLines_cons]
      cases hstep : stepFlag e l
      · simpa using ih false
      · simp only [if_pos, List.all_cons, Bool.and_eq_true, Bool.not_eq_true', ite_true]
        exact ⟨hc', ih true⟩

/-- C2 (counterexample): the `Tab` record is in the table, its width 125
is odd, and its single text element is emitted at x = 62 = 0 + 125 // 2,
which is NOT the exact arithmetic value 0 + 125/2 = 62.5: the code uses
floor division, contradicting the claim. -/
theorem label_horizontal_center_cex :
    tabKey ∈ keys ∧ ((synthTexts tabKey).getD 0 default).x = 62 ∧
    ((62 : ℚ) ≠ (tabKey.x : ℚ) + (tabKey.width : ℚ) / 2) := by
  refine ⟨by decide, by decide, ?_⟩
  norm_num [tabKey]

/-- C2 (amended): every text element synthesized for a record is emitted
at horizontal position x + (width floor-divided by 2); when the width is
even this coincides with the exact arithmetic value x + width/2, and it is
label-count-independent. -/
theorem label_horizontal_center (k : Key) (t : TextElem) (ht : t ∈ synthTexts k) :
    t.x = k.x + Int.fdiv k.width 2 ∧
    (k.width % 2 = 0 → (t.x : ℚ) = (k.x : ℚ) + (k.width : ℚ) / 2) := by
  have hx : t.x = k.x + Int.fdiv k.width 2 := by
    unfold synthTexts at ht
    split at ht <;> simp only [List.mem_cons, List.mem_singleton, List.not_mem_nil,
      or_false] at ht
    · subst ht; rfl
    · rcases ht with rfl | rfl <;> rfl
  refine ⟨hx, fun heven => ?_⟩
  obtain ⟨m, hm⟩ := Int.dvd_of_emod_eq_zero heven
  rw [hx, hm, Int.mul_fdiv_cancel_left m (by norm_num)]
  push_cast
  ring

/-- C2 (witness): the amended theorem applied to the Escape record's
single text element, whose even width 100 gives the exact center 50. -/
theorem label_horizontal_center_witness :
    (⟨50, 50, 30, "ESC"⟩ : TextElem).x = escapeKey.x + Int.fdiv escapeKey.width 2 ∧
    ((⟨50, 50, 30, "ESC"⟩ : TextElem).x : ℚ) =
      (escapeKey.x : ℚ) + (escapeKey.width : ℚ) / 2 :=
  ⟨(label_horizontal_center escapeKey ⟨50, 50, 30, "ESC"⟩ (by decide)).1,
   (label_horizontal_center escapeKey ⟨50, 50, 30, "ESC"⟩ (by decide)).2 (by decide)⟩

/-- C4: a record with exactly one label synthesizes exactly one text
element, at vertical position y + 50, with font size 30 except 25 for the
three joystick fire keys and 70 for the joystick icon key. -/
theorem single_label_texts (k : Key) (h : k.labels.length = 1) :
    (synthTexts k).length = 1 ∧
    ((synthTexts k).getD 0 default).y = k.y + 50 ∧
    ((synthTexts k).getD 0 default).size =
      (if k.name = "JoystickFire1" ∨ k.name = "JoystickFire2" ∨ k.name = "JoystickFire3"
       then 25 else if k.name = "JoystickIcon" then 70 else 30) := by
  refine ⟨by simp [synthTexts, h], by simp [synthTexts, h], ?_⟩
  simp [synthTexts, h, fireNames]

/-- C4 (witness): the single-label theorem applied to the JoystickFire1
record. -/
theorem single_label_texts_witness :
    (synthTexts fire1Key).length = 1 ∧
    ((synthTexts fire1Key).getD 0 default).y = fire1Key.y + 50 ∧
    ((synthTexts fire1Key).getD 0 default).size =
      (if fire1Key.name = "JoystickFire1" ∨ fire1Key.name = "JoystickFire2" ∨
          fire1Key.name = "JoystickFire3"
       then 25 else if fire1Key.name = "JoystickIcon" then 70 else 30) :=
  single_label_texts fire1Key (by decide)

/-- C5: a record with exactly two labels synthesizes exactly two text
elements, the first at vertical position y + 35 and the second at y + 70,
both with font size 30 whatever the record's name, and both at the same
horizontal position. -/
theorem two_label_texts (k : Key) (h : k.labels.length = 2) :
    (synthTexts k).length = 2 ∧
    ((synthTexts k).getD 0 default).y = k.y + 35 ∧
    ((synthTexts k).getD 1 default).y = k.y + 70 ∧
    ((synthTexts k).getD 0 default).size = 30 ∧
    ((synthTexts k).getD 1 default).size = 30 ∧
    ((synthTexts k).getD 0 default).x = ((synthTexts k).getD 1 default).x := by
  have hne : ¬ k.labels.length = 1 := by omega
  simp [synthTexts, hne]

/-- C5 (witness): the two-label theorem applied to the Key1 record. -/
theorem two_label_texts_witness :
    (synthTexts key1Key).length = 2 ∧
    ((synthTexts key1Key).getD 0 default).y = key1Key.y + 35 ∧
    ((synthTexts key1Key).getD 1 default).y = key1Key.y + 70 ∧
    ((synthTexts key1Key).getD 0 default).size = 30 ∧
    ((synthTexts key1Key).getD 1 default).size = 30 ∧
    ((synthTexts key1Key).getD 0 default).x = ((synthTexts key1Key).getD 1 default).x :=
  two_label_texts key1Key (by decide)

/-- C3 (counterexample): starting from the state where the converter input
file is already missing but the converter output file exists, cleanup
leaves the output file in place: the FileNotFoundError raised by the first
removal skips the second removal, contradicting the claim that neither
transient file exists afterwards whatever existed beforehand. -/
theorem cleanup_missing_input_cex :
    (cleanup ⟨false, true⟩).tempOut = true ∧ cleanup ⟨false, true⟩ ≠ ⟨false, false⟩ := by
  decide

/-- C3 (amended): cleanup always leaves the converter input file absent;
when the input file existed, both transient files are removed; but when
the input file was already missing, the exception handler skips the second
removal and the converter output file keeps its prior existence state. -/
theorem cleanup_behavior (s : TempState) :
    (cleanup s).tempIn = false ∧
    (s.tempIn = true → cleanup s = ⟨false, false⟩) ∧
    (s.tempIn = false → (cleanup s).tempOut = s.tempOut) := by
  obtain ⟨tin, tout⟩ := s
  cases tin <;> cases tout <;> simp [cleanup, removeFile]

/-- C3 (witness): the cleanup theorem applied to the state where both
transient files exist, the state every iteration actually reaches. -/
theorem cleanup_behavior_witness :
    cleanup ⟨true, true⟩ = ⟨false, false⟩ :=
  (cleanup_behavior ⟨true, true⟩).2.1 rfl

set_option maxHeartbeats 2000000 in
/-- C9: the static key table has pairwise-distinct record names, and every
record's labels list has length exactly 1 or exactly 2. -/
theorem key_table_invariants :
    (keys.map Key.name).Nodup ∧
    (keys.all fun k => k.labels.length == 1 || k.labels.length == 2) = true := by
  constructor <;> decide

end GenerateKeyLabels
